import Mathlib

/-!
Verification of the PioneerOS post-build validation suite (`Validator.py`).

The program is a flat sequence of 17 filesystem checks.  We embed the
filesystem as an abstract record `FS` of the query operations the checks
perform (`Path.exists`, `stat().st_size`, `read_text`, recursive glob,
`iterdir`).  `read_text` and `iterdir` are fallible (`Option`),
modelling a raised `OSError`; a check that performs one of these
unguarded operations therefore returns `Option Results`, with `none`
meaning the exception propagated out of the check.  Each check is a
direct translation of the
corresponding Python method; the mutable `self.results` state is threaded
explicitly as a `Results` value.
-/

namespace PioneerOS

/-- Abstract filesystem snapshot: the read-only queries the checks issue.
The two fallible queries return `Option`: `readText p = none` models
`Path.read_text()` raising an `OSError` (e.g. permission denied) at path
`p`, and `dirEntries p = none` models `list(Path.iterdir())` raising one
(e.g. an existing but unreadable directory).  `pathExists`, `size` and
`globMatch` are modelled as non-failing answers of the snapshot. -/
structure FS where
  pathExists : String → Bool
  size : String → Nat
  readText : String → Option String
  globMatch : String → String → Bool
  dirEntries : String → Option (List String)

/-- One stored test result: the value placed in `self.results["tests"][name]`
together with its key. -/
structure Entry where
  name : String
  status : String
  message : String
  details : String
deriving DecidableEq

/-- The running tally `self.results["summary"]`. -/
structure Summary where
  passed : Nat
  failed : Nat
  warnings : Nat
deriving DecidableEq

/-- The `self.results` dictionary: timestamp, ordered test entries
(Python dicts preserve insertion order; all 17 check names are distinct,
so a list is a faithful model), and the tally. -/
structure Results where
  timestamp : String
  tests : List Entry
  summary : Summary
deriving DecidableEq

/-- The three-state readiness verdict printed by `generate_report`. -/
inductive Verdict where
  | READY
  | CONDITIONAL
  | NOT_READY
deriving DecidableEq

-- Paths, as resolved in `PioneerValidator.__init__` (default buildroot path).
def buildrootPath : String := "/mnt/data/buildroot"

def imagesPath : String := buildrootPath ++ "/output/images"

def targetPath : String := buildrootPath ++ "/output/target"

def hostPath : String := buildrootPath ++ "/output/host"

def imgSdPath : String := imagesPath ++ "/sdcard.img"

def kernelImgPath : String := imagesPath ++ "/Image"

def dtbPath : String := imagesPath ++ "/bcm2711-rpi-4-b.dtb"

def rootfsPath : String := imagesPath ++ "/rootfs.ext4"

def bootVfatPath : String := imagesPath ++ "/boot.vfat"

def python3Path : String := targetPath ++ "/usr/bin/python3"

def pythonLibPath : String := targetPath ++ "/usr/lib/python3.11"

def libDirPath : String := targetPath ++ "/usr/lib"

def netConfigPath : String := buildrootPath ++ "/board/raspberrypi/overlay/etc/network/interfaces"

def dropbearPath : String := targetPath ++ "/usr/sbin/dropbear"

def dropbearInitPath : String := targetPath ++ "/etc/init.d/S50dropbear"

def i2cDetectPath : String := targetPath ++ "/usr/sbin/i2cdetect"

def modulesDirPath : String := targetPath ++ "/lib/modules"

def overlayScriptPath : String := targetPath ++ "/etc/init.d/S99robotics"

def wpaConfPath : String := targetPath ++ "/etc/wpa_supplicant.conf"

def fwDirPath : String := imagesPath ++ "/rpi-firmware"

def gccPath : String := hostPath ++ "/bin/aarch64-buildroot-linux-gnu-gcc"

def reportFilePath : String := buildrootPath ++ "/validation_report.json"

def opencvPatterns : List String := [ "libopencv_core.so", "libopencv_imgproc.so"]

def utilsList : List String := [ "htop", "nano", "file"]

def firmwareFiles : List String := [ "start4.elf", "fixup4.dat"]

/-- Does `pat` match starting at the head of `s`? -/
def leadMatch : List Char → List Char → Bool
  | [], _ => true
  | _ :: _, [] => false
  | a :: as, b :: bs => a == b && leadMatch as bs

/-- Does `pat` occur as a contiguous run somewhere in `s`? -/
def occursIn (pat : List Char) : List Char → Bool
  | [] => leadMatch pat []
  | b :: bs => leadMatch pat (b :: bs) || occursIn pat bs

/-- Python's substring test `pat in s` (for the nonempty literal patterns
the checks use). -/
def strContains (s pat : String) : Bool := occursIn pat.data s.data

/-- Render `num / den` with one decimal place, as Python's `f"{x:.1f}"`
does for the size quotients (ties rounded up rather than to even; no
check or claim depends on the tie digit). -/
def fmtFixed1 (num den : Nat) : String :=
  let r := (num * 10 + den / 2) / den
  Nat.repr (r / 10) ++ "." ++ Nat.repr (r % 10)

/-- Render `num / den` with two decimal places, as `f"{x:.2f}"`. -/
def fmtFixed2 (num den : Nat) : String :=
  let r := (num * 100 + den / 2) / den
  Nat.repr (r / 100) ++ "." ++ (if r % 100 < 10 then "0" else "") ++ Nat.repr (r % 100)

/-- `bytes / (1024**2)` rendered with one decimal place. -/
def fmtMB (bytes : Nat) : String := fmtFixed1 bytes (2 ^ 20)

/-- `bytes / (1024**3)` rendered with two decimal places. -/
def fmtGB (bytes : Nat) : String := fmtFixed2 bytes (2 ^ 30)

/-- `String` of `n` copies of `c` (Python's `"="*70` etc.). -/
def repChar (n : Nat) (c : Char) : String := String.mk (List.replicate n c)

/-- The fresh `self.results` built in `__init__`; `now` is the
`datetime.now().isoformat()` value of this run. -/
def initResults (now : String) : Results :=
  { timestamp := now, tests := [], summary := { passed := 0, failed := 0, warnings := 0 } }

/-- `PioneerValidator.log`: store the entry under the test name and bump
exactly one counter — `passed` iff the status string equals `"PASS"`,
`failed` iff it equals `"FAIL"`, and `warnings` for every other string. -/
def log (r : Results) (status test_name message details : String) : Results :=
  { r with
    tests := r.tests ++ [{ name := test_name, status := status, message := message, details := details }],
    summary :=
      if status = "PASS" then { r.summary with passed := r.summary.passed + 1 }
      else if status = "FAIL" then { r.summary with failed := r.summary.failed + 1 }
      else { r.summary with warnings := r.summary.warnings + 1 } }

/-- Test 1: `test_image_exists`. -/
def test_image_exists (fs : FS) (r : Results) : Results :=
  if fs.pathExists imgSdPath then
    log r "PASS" "Image File" ( "Found at " ++ imgSdPath) ( "Size: " ++ fmtMB (fs.size imgSdPath) ++ " MB")
  else
    log r "FAIL" "Image File" "sdcard.img not found" ( "Expected at " ++ imgSdPath)

/-- Test 2: `test_kernel_exists`. -/
def test_kernel_exists (fs : FS) (r : Results) : Results :=
  if fs.pathExists kernelImgPath then
    log r "PASS" "Kernel Image" "Linux kernel found" ( "Size: " ++ fmtMB (fs.size kernelImgPath) ++ " MB")
  else
    log r "FAIL" "Kernel Image" "Kernel not found" ""

/-- Test 3: `test_dtb_exists`. -/
def test_dtb_exists (fs : FS) (r : Results) : Results :=
  if fs.pathExists dtbPath then
    log r "PASS" "Device Tree" "BCM2711 DTB found" ""
  else
    log r "FAIL" "Device Tree" "DTB for RPi4 not found" ""

/-- Test 4: `test_rootfs_exists`. -/
def test_rootfs_exists (fs : FS) (r : Results) : Results :=
  if fs.pathExists rootfsPath then
    log r "PASS" "Root Filesystem" "ext4 rootfs found" ( "Size: " ++ fmtMB (fs.size rootfsPath) ++ " MB")
  else
    log r "FAIL" "Root Filesystem" "rootfs.ext4 not found" ""

/-- Test 5: `test_boot_partition`. -/
def test_boot_partition (fs : FS) (r : Results) : Results :=
  if fs.pathExists bootVfatPath then
    log r "PASS" "Boot Partition" "boot.vfat created" ""
  else
    log r "FAIL" "Boot Partition" "boot.vfat not found" ""

/-- Test 6: `test_python_in_rootfs`. -/
def test_python_in_rootfs (fs : FS) (r : Results) : Results :=
  let found := List.filter (fun p => fs.pathExists p) [python3Path, pythonLibPath]
  if 1 ≤ found.length then
    log r "PASS" "Python3" ( "Found " ++ Nat.repr found.length ++ "/2 components") ""
  else
    log r "FAIL" "Python3" "Python3 not found in rootfs" ""

/-- Test 7: `test_opencv_libs`.  `fs.globMatch dir pat` models
`list(dir.glob(f"**/{pat}*")) != []`. -/
def test_opencv_libs (fs : FS) (r : Results) : Results :=
  if fs.pathExists libDirPath then
    let found := List.filter (fun pat => fs.globMatch libDirPath pat) opencvPatterns
    if 1 ≤ found.length then
      log r "PASS" "OpenCV4" ( "Found " ++ Nat.repr found.length ++ " core libraries") ""
    else
      log r "WARN" "OpenCV4" "OpenCV libraries not confirmed" ""
  else
    log r "WARN" "OpenCV4" "Cannot verify (lib dir not accessible)" ""

/-- Test 8: `test_network_config`.  The `read_text()` call is not guarded
by any handler in the source, so a read error (`readText = none`)
propagates out of the check: the result is `none`. -/
def test_network_config (fs : FS) (r : Results) : Option Results :=
  if fs.pathExists netConfigPath then
    match fs.readText netConfigPath with
    | none => none
    | some content =>
      if strContains content "192.168.1.10" && strContains content "eth0" then
        some (log r "PASS" "Network Config" "Static IP configured (192.168.1.10)" "")
      else
        some (log r "WARN" "Network Config" "Config exists but may be incomplete" "")
  else
    some (log r "FAIL" "Network Config" "Network interfaces file missing" "")

/-- Test 9: `test_ssh_server`. -/
def test_ssh_server (fs : FS) (r : Results) : Results :=
  let found := List.filter (fun p => fs.pathExists p) [dropbearPath, dropbearInitPath]
  if 1 ≤ found.length then
    log r "PASS" "SSH Server" ( "Dropbear found (" ++ Nat.repr found.length ++ "/2 files)") ""
  else
    log r "FAIL" "SSH Server" "Dropbear not found" ""

/-- Test 10: `test_i2c_tools`. -/
def test_i2c_tools (fs : FS) (r : Results) : Results :=
  if fs.pathExists i2cDetectPath then
    log r "PASS" "I2C Tools" "i2cdetect found" ""
  else
    log r "WARN" "I2C Tools" "i2c-tools not confirmed" ""

/-- Test 11: `test_kernel_modules`.  The `list(modules_dir.iterdir())`
call is not guarded by any handler in the source, so a listing error on
an existing directory (`dirEntries = none`) propagates out of the check:
the result is `none`. -/
def test_kernel_modules (fs : FS) (r : Results) : Option Results :=
  if fs.pathExists modulesDirPath then
    match fs.dirEntries modulesDirPath with
    | none => none
    | some module_dirs =>
      if !module_dirs.isEmpty then
        some (log r "PASS" "Kernel Modules" "Found modules directory" "")
      else
        some (log r "WARN" "Kernel Modules" "Modules directory empty" "")
  else
    some (log r "WARN" "Kernel Modules" "Cannot verify modules" "")

/-- Test 12: `test_rootfs_overlay`. -/
def test_rootfs_overlay (fs : FS) (r : Results) : Results :=
  if fs.pathExists overlayScriptPath then
    log r "PASS" "Custom Overlay" "Robotics startup script present" ""
  else
    log r "WARN" "Custom Overlay" "Startup script not found" ""

/-- Test 13: `test_wifi_config`.  Like test 8, the `read_text()` call is
unguarded: a read error propagates (`none`). -/
def test_wifi_config (fs : FS) (r : Results) : Option Results :=
  if fs.pathExists wpaConfPath then
    match fs.readText wpaConfPath with
    | none => none
    | some content =>
      if strContains content "YOUR_SSID" then
        some (log r "WARN" "WiFi Config" "Default credentials not changed" "")
      else
        some (log r "PASS" "WiFi Config" "WiFi credentials configured" "")
  else
    some (log r "WARN" "WiFi Config" "wpa_supplicant.conf not found" "")

/-- Test 14: `test_utilities`. -/
def test_utilities (fs : FS) (r : Results) : Results :=
  let found := List.filter (fun u => fs.pathExists (targetPath ++ "/usr/bin/" ++ u)) utilsList
  if 2 ≤ found.length then
    log r "PASS" "System Utilities" ( "Found " ++ Nat.repr found.length ++ "/" ++ Nat.repr utilsList.length ++ " tools") ""
  else
    log r "WARN" "System Utilities" ( "Only " ++ Nat.repr found.length ++ "/" ++ Nat.repr utilsList.length ++ " tools found") ""

/-- Test 15: `test_firmware_files`. -/
def test_firmware_files (fs : FS) (r : Results) : Results :=
  if fs.pathExists fwDirPath then
    let found := List.filter (fun f => fs.pathExists (fwDirPath ++ "/" ++ f)) firmwareFiles
    if found.length = firmwareFiles.length then
      log r "PASS" "RPi Firmware" "All firmware files present" ""
    else
      log r "WARN" "RPi Firmware" ( "Found " ++ Nat.repr found.length ++ "/" ++ Nat.repr firmwareFiles.length ++ " files") ""
  else
    log r "FAIL" "RPi Firmware" "Firmware directory not found" ""

/-- Test 16: `test_image_size`.  `size_gb = st_size / 1024**3`; the bounds
`1.5 <= size_gb <= 4` are evaluated over ℚ, with `mkRat n (2^30)` the
exact value of the division and `mkRat 3 2` the exact value of the
literal `1.5` (the Python float comparison is exact here: division by
`2^30` is exact in double precision for every size below `2^53`, far
above the 4 GiB bound).  When the image file is absent the method
returns without logging anything. -/
def test_image_size (fs : FS) (r : Results) : Results :=
  if fs.pathExists imgSdPath then
    if mkRat 3 2 ≤ mkRat (fs.size imgSdPath : Int) (2 ^ 30) ∧ mkRat (fs.size imgSdPath : Int) (2 ^ 30) ≤ 4 then
      log r "PASS" "Image Size" ( "Size OK (" ++ fmtGB (fs.size imgSdPath) ++ " GB)") ""
    else if mkRat (fs.size imgSdPath : Int) (2 ^ 30) < mkRat 3 2 then
      log r "WARN" "Image Size" ( "Smaller than expected (" ++ fmtGB (fs.size imgSdPath) ++ " GB)") ""
    else
      log r "WARN" "Image Size" ( "Larger than expected (" ++ fmtGB (fs.size imgSdPath) ++ " GB)") ""
  else r

/-- Test 17: `test_toolchain`. -/
def test_toolchain (fs : FS) (r : Results) : Results :=
  if fs.pathExists gccPath then
    log r "PASS" "Toolchain" "Cross-compiler present" ""
  else
    log r "WARN" "Toolchain" "Cross-compiler not found" ""

/-- `PioneerValidator.run_all_tests`: the 17 checks in source order,
starting from the fresh `__init__` state.  A `none` from one of the
three checks with an unguarded fallible operation (the two `read_text()`
checks and the `iterdir()` check) aborts the remainder of the run (the
uncaught exception unwinds through `run_all_tests`). -/
def run_all_tests (fs : FS) (now : String) : Option Results :=
  let r := initResults now
  let r := test_image_exists fs r
  let r := test_kernel_exists fs r
  let r := test_dtb_exists fs r
  let r := test_rootfs_exists fs r
  let r := test_boot_partition fs r
  let r := test_python_in_rootfs fs r
  let r := test_opencv_libs fs r
  let r := test_ssh_server fs r
  let r := test_i2c_tools fs r
  match test_network_config fs r with
  | none => none
  | some r =>
    match test_wifi_config fs r with
    | none => none
    | some r =>
      let r := test_rootfs_overlay fs r
      match test_kernel_modules fs r with
      | none => none
      | some r =>
        let r := test_utilities fs r
        let r := test_firmware_files fs r
        let r := test_image_size fs r
        let r := test_toolchain fs r
        some r

/-- The readiness assessment of `generate_report` lines 286-294:
`if failed == 0 and passed >= 12`, `elif failed <= 2 and warnings <= 3`,
`else`. -/
def verdictOf (s : Summary) : Verdict :=
  if s.failed = 0 ∧ 12 ≤ s.passed then Verdict.READY
  else if s.failed ≤ 2 ∧ s.warnings ≤ 3 then Verdict.CONDITIONAL
  else Verdict.NOT_READY

def greenC : String := "\x1B[92m"

def redC : String := "\x1B[91m"

def yellowC : String := "\x1B[93m"

def blueC : String := "\x1B[94m"

def endColor : String := "\x1B[0m"

/-- Observable outcome of `generate_report`: the lines printed before the
function either returns or dies, the verdict branch taken, the report file
contents written (if the write succeeded), and whether the function ran to
completion.  `completed = false` means the unguarded
`open(...)/json.dump(...)` raised and the exception propagated, killing
the process. -/
structure ReportOutcome where
  printed : List String
  verdict : Verdict
  written : Option Results
  completed : Bool
deriving DecidableEq

/-- `PioneerValidator.generate_report`.  `writeOk` abstracts whether the
`open(report_path, 'w')` / `json.dump` succeeds.  The summary block and
the verdict are printed before the write is attempted; the write is not
wrapped in any handler, reports no error message of its own, and is never
retried. -/
def generate_report (r : Results) (writeOk : Bool) : ReportOutcome :=
  let total := r.summary.passed + r.summary.failed + r.summary.warnings
  let v := verdictOf r.summary
  { printed :=
      [ "\n" ++ repChar 70 '=',
        blueC ++ "PIONEROS VALIDATION REPORT" ++ endColor,
        repChar 70 '=',
        "\nTotal Tests: " ++ Nat.repr total,
        greenC ++ "✓ Passed: " ++ Nat.repr r.summary.passed ++ endColor,
        redC ++ "✗ Failed: " ++ Nat.repr r.summary.failed ++ endColor,
        yellowC ++ "⚠ Warnings: " ++ Nat.repr r.summary.warnings ++ endColor,
        "\n" ++ repChar 70 '-'] ++
      (match v with
       | Verdict.READY =>
          [greenC ++ "STATUS: READY FOR DEPLOYMENT ✓" ++ endColor,
           "System passed all critical tests. Safe to flash to SD card."]
       | Verdict.CONDITIONAL =>
          [yellowC ++ "STATUS: CONDITIONAL PASS ⚠" ++ endColor,
           "System mostly functional. Review warnings before deployment."]
       | Verdict.NOT_READY =>
          [redC ++ "STATUS: NOT READY ✗" ++ endColor,
           "Critical failures detected. Fix issues before flashing."]) ++
      (if writeOk then
        [ "\nDetailed report saved: " ++ reportFilePath,
          repChar 70 '=' ++ "\n"]
       else []),
    verdict := v,
    written := if writeOk then some r else none,
    completed := writeOk }

/-! ### Entry-list mirrors of the checks

For each check we record, as a pure function of the filesystem, the list
of entries it logs (empty for `test_image_size` on a missing image,
`none` when an unguarded read raises).  Each mirror is proven equal to
the corresponding check below; all run-level reasoning goes through
them. -/

def imageEntries (fs : FS) : List Entry :=
  if fs.pathExists imgSdPath then
    [⟨ "Image File", "PASS", "Found at " ++ imgSdPath, "Size: " ++ fmtMB (fs.size imgSdPath) ++ " MB"⟩]
  else
    [⟨ "Image File", "FAIL", "sdcard.img not found", "Expected at " ++ imgSdPath⟩]

def kernelEntries (fs : FS) : List Entry :=
  if fs.pathExists kernelImgPath then
    [⟨ "Kernel Image", "PASS", "Linux kernel found", "Size: " ++ fmtMB (fs.size kernelImgPath) ++ " MB"⟩]
  else
    [⟨ "Kernel Image", "FAIL", "Kernel not found", ""⟩]

def dtbEntries (fs : FS) : List Entry :=
  if fs.pathExists dtbPath then
    [⟨ "Device Tree", "PASS", "BCM2711 DTB found", ""⟩]
  else
    [⟨ "Device Tree", "FAIL", "DTB for RPi4 not found", ""⟩]

def rootfsEntries (fs : FS) : List Entry :=
  if fs.pathExists rootfsPath then
    [⟨ "Root Filesystem", "PASS", "ext4 rootfs found", "Size: " ++ fmtMB (fs.size rootfsPath) ++ " MB"⟩]
  else
    [⟨ "Root Filesystem", "FAIL", "rootfs.ext4 not found", ""⟩]

def bootEntries (fs : FS) : List Entry :=
  if fs.pathExists bootVfatPath then
    [⟨ "Boot Partition", "PASS", "boot.vfat created", ""⟩]
  else
    [⟨ "Boot Partition", "FAIL", "boot.vfat not found", ""⟩]

def pythonEntries (fs : FS) : List Entry :=
  let found := List.filter (fun p => fs.pathExists p) [python3Path, pythonLibPath]
  if 1 ≤ found.length then
    [⟨ "Python3", "PASS", "Found " ++ Nat.repr found.length ++ "/2 components", ""⟩]
  else
    [⟨ "Python3", "FAIL", "Python3 not found in rootfs", ""⟩]

def opencvEntries (fs : FS) : List Entry :=
  if fs.pathExists libDirPath then
    let found := List.filter (fun pat => fs.globMatch libDirPath pat) opencvPatterns
    if 1 ≤ found.length then
      [⟨ "OpenCV4", "PASS", "Found " ++ Nat.repr found.length ++ " core libraries", ""⟩]
    else
      [⟨ "OpenCV4", "WARN", "OpenCV libraries not confirmed", ""⟩]
  else
    [⟨ "OpenCV4", "WARN", "Cannot verify (lib dir not accessible)", ""⟩]

def networkEntries (fs : FS) : Option (List Entry) :=
  if fs.pathExists netConfigPath then
    match fs.readText netConfigPath with
    | none => none
    | some content =>
      if strContains content "192.168.1.10" && strContains content "eth0" then
        some [⟨ "Network Config", "PASS", "Static IP configured (192.168.1.10)", ""⟩]
      else
        some [⟨ "Network Config", "WARN", "Config exists but may be incomplete", ""⟩]
  else
    some [⟨ "Network Config", "FAIL", "Network interfaces file missing", ""⟩]

def sshEntries (fs : FS) : List Entry :=
  let found := List.filter (fun p => fs.pathExists p) [dropbearPath, dropbearInitPath]
  if 1 ≤ found.length then
    [⟨ "SSH Server", "PASS", "Dropbear found (" ++ Nat.repr found.length ++ "/2 files)", ""⟩]
  else
    [⟨ "SSH Server", "FAIL", "Dropbear not found", ""⟩]

def i2cEntries (fs : FS) : List Entry :=
  if fs.pathExists i2cDetectPath then
    [⟨ "I2C Tools", "PASS", "i2cdetect found", ""⟩]
  else
    [⟨ "I2C Tools", "WARN", "i2c-tools not confirmed", ""⟩]

def modulesEntries (fs : FS) : Option (List Entry) :=
  if fs.pathExists modulesDirPath then
    match fs.dirEntries modulesDirPath with
    | none => none
    | some module_dirs =>
      if !module_dirs.isEmpty then
        some [⟨ "Kernel Modules", "PASS", "Found modules directory", ""⟩]
      else
        some [⟨ "Kernel Modules", "WARN", "Modules directory empty", ""⟩]
  else
    some [⟨ "Kernel Modules", "WARN", "Cannot verify modules", ""⟩]

def overlayEntries (fs : FS) : List Entry :=
  if fs.pathExists overlayScriptPath then
    [⟨ "Custom Overlay", "PASS", "Robotics startup script present", ""⟩]
  else
    [⟨ "Custom Overlay", "WARN", "Startup script not found", ""⟩]

def wifiEntries (fs : FS) : Option (List Entry) :=
  if fs.pathExists wpaConfPath then
    match fs.readText wpaConfPath with
    | none => none
    | some content =>
      if strContains content "YOUR_SSID" then
        some [⟨ "WiFi Config", "WARN", "Default credentials not changed", ""⟩]
      else
        some [⟨ "WiFi Config", "PASS", "WiFi credentials configured", ""⟩]
  else
    some [⟨ "WiFi Config", "WARN", "wpa_supplicant.conf not found", ""⟩]

def utilitiesEntries (fs : FS) : List Entry :=
  let found := List.filter (fun u => fs.pathExists (targetPath ++ "/usr/bin/" ++ u)) utilsList
  if 2 ≤ found.length then
    [⟨ "System Utilities", "PASS", "Found " ++ Nat.repr found.length ++ "/" ++ Nat.repr utilsList.length ++ " tools", ""⟩]
  else
    [⟨ "System Utilities", "WARN", "Only " ++ Nat.repr found.length ++ "/" ++ Nat.repr utilsList.length ++ " tools found", ""⟩]

def firmwareEntries (fs : FS) : List Entry :=
  if fs.pathExists fwDirPath then
    let found := List.filter (fun f => fs.pathExists (fwDirPath ++ "/" ++ f)) firmwareFiles
    if found.length = firmwareFiles.length then
      [⟨ "RPi Firmware", "PASS", "All firmware files present", ""⟩]
    else
      [⟨ "RPi Firmware", "WARN", "Found " ++ Nat.repr found.length ++ "/" ++ Nat.repr firmwareFiles.length ++ " files", ""⟩]
  else
    [⟨ "RPi Firmware", "FAIL", "Firmware directory not found", ""⟩]

def sizeEntries (fs : FS) : List Entry :=
  if fs.pathExists imgSdPath then
    if mkRat 3 2 ≤ mkRat (fs.size imgSdPath : Int) (2 ^ 30) ∧ mkRat (fs.size imgSdPath : Int) (2 ^ 30) ≤ 4 then
      [⟨ "Image Size", "PASS", "Size OK (" ++ fmtGB (fs.size imgSdPath) ++ " GB)", ""⟩]
    else if mkRat (fs.size imgSdPath : Int) (2 ^ 30) < mkRat 3 2 then
      [⟨ "Image Size", "WARN", "Smaller than expected (" ++ fmtGB (fs.size imgSdPath) ++ " GB)", ""⟩]
    else
      [⟨ "Image Size", "WARN", "Larger than expected (" ++ fmtGB (fs.size imgSdPath) ++ " GB)", ""⟩]
  else []

def toolchainEntries (fs : FS) : List Entry :=
  if fs.pathExists gccPath then
    [⟨ "Toolchain", "PASS", "Cross-compiler present", ""⟩]
  else
    [⟨ "Toolchain", "WARN", "Cross-compiler not found", ""⟩]

/-- All entries a full run logs, in run order, or `none` if one of the
three unguarded fallible operations raises. -/
def runEntries (fs : FS) : Option (List Entry) :=
  match networkEntries fs with
  | none => none
  | some ne =>
    match wifiEntries fs with
    | none => none
    | some we =>
      match modulesEntries fs with
      | none => none
      | some me =>
        some (imageEntries fs ++ kernelEntries fs ++ dtbEntries fs ++ rootfsEntries fs ++
          bootEntries fs ++ pythonEntries fs ++ opencvEntries fs ++ sshEntries fs ++
          i2cEntries fs ++ ne ++ we ++ overlayEntries fs ++ me ++
          utilitiesEntries fs ++ firmwareEntries fs ++ sizeEntries fs ++ toolchainEntries fs)

/-- Fold a list of entries into the result state via `log`. -/
def appendAll (r : Results) (es : List Entry) : Results :=
  List.foldl (fun a e => log a e.status e.name e.message e.details) r es

/-- The total of the three counters of a tally. -/
def tallySum (s : Summary) : Nat := s.passed + s.failed + s.warnings

/-- Number of entries whose status is the string `"FAIL"`. -/
def failCount : List Entry → Nat
  | [] => 0
  | e :: es => (if e.status = "FAIL" then 1 else 0) + failCount es

/-! ### Concrete filesystem fixtures -/

def ts0 : String := "2025-01-01T00:00:00"

/-- Paths present in the fully-built fixture: everything the checks look
for except `etc/wpa_supplicant.conf` and `usr/sbin/i2cdetect`. -/
def goodPaths : List String :=
  [imgSdPath, kernelImgPath, dtbPath, rootfsPath, bootVfatPath, python3Path,
   libDirPath, dropbearPath, netConfigPath, overlayScriptPath, modulesDirPath,
   targetPath ++ "/usr/bin/htop", targetPath ++ "/usr/bin/nano", targetPath ++ "/usr/bin/file",
   fwDirPath, fwDirPath ++ "/start4.elf", fwDirPath ++ "/fixup4.dat", gccPath]

/-- A fully populated tree (2.5 GiB image, static-IP network config)
missing only the wireless config file and the I2C tool. -/
def goodFS : FS :=
  { pathExists := fun p => goodPaths.contains p,
    size := fun _ => 2684354560,
    readText := fun _ => some "auto eth0\niface eth0 inet static\n  address 192.168.1.10",
    globMatch := fun _ _ => true,
    dirEntries := fun _ => some [ "6.1.0"] }

/-- A tree where the network interfaces file exists but every read raises
(e.g. the file is mode 000). -/
def badFS : FS :=
  { pathExists := fun p => p == netConfigPath,
    size := fun _ => 0,
    readText := fun _ => none,
    globMatch := fun _ _ => false,
    dirEntries := fun _ => some [] }

/-- A tree whose library directory contains a match for
`libopencv_core.so` but none for `libopencv_imgproc.so`. -/
def cvFS : FS :=
  { pathExists := fun p => p == libDirPath,
    size := fun _ => 0,
    readText := fun _ => none,
    globMatch := fun _ pat => pat == "libopencv_core.so",
    dirEntries := fun _ => some [] }

/-- A tree containing only `sdcard.img`, of `n` bytes. -/
def sizeFS (n : Nat) : FS :=
  { pathExists := fun p => p == imgSdPath,
    size := fun _ => n,
    readText := fun _ => none,
    globMatch := fun _ _ => false,
    dirEntries := fun _ => some [] }

/-- A tree where `lib/modules` exists but listing it raises (e.g. the
directory is mode 000), while every read succeeds. -/
def modFS : FS :=
  { pathExists := fun p => p == modulesDirPath,
    size := fun _ => 0,
    readText := fun _ => some "",
    globMatch := fun _ _ => false,
    dirEntries := fun _ => none }

/-- The result state of a full run over `goodFS`. -/
def goodResult : Results := (run_all_tests goodFS ts0).getD (initResults ts0)

/-! ### Basic lemmas about `log` and `appendAll` -/

theorem log_timestamp (r : Results) (s n m d : String) :
    (log r s n m d).timestamp = r.timestamp := rfl

theorem log_tests (r : Results) (s n m d : String) :
    (log r s n m d).tests = r.tests ++ [⟨n, s, m, d⟩] := rfl

theorem log_summary (r : Results) (s n m d : String) :
    (log r s n m d).summary =
      if s = "PASS" then { r.summary with passed := r.summary.passed + 1 }
      else if s = "FAIL" then { r.summary with failed := r.summary.failed + 1 }
      else { r.summary with warnings := r.summary.warnings + 1 } := rfl

theorem log_sum (r : Results) (s n m d : String) :
    tallySum (log r s n m d).summary = tallySum r.summary + 1 := by
  rw [log_summary]
  unfold tallySum
  split_ifs <;> simp <;> omega

theorem log_failed (r : Results) (s n m d : String) :
    (log r s n m d).summary.failed = r.summary.failed + (if s = "FAIL" then 1 else 0) := by
  rw [log_summary]
  split_ifs with h1 h2 <;> simp_all

theorem appendAll_nil (r : Results) : appendAll r [] = r := rfl

theorem appendAll_cons (r : Results) (e : Entry) (es : List Entry) :
    appendAll r (e :: es) = appendAll (log r e.status e.name e.message e.details) es := rfl

theorem appendAll_append (r : Results) (es1 es2 : List Entry) :
    appendAll r (es1 ++ es2) = appendAll (appendAll r es1) es2 := by
  simp [appendAll, List.foldl_append]

theorem appendAll_timestamp (es : List Entry) : ∀ r : Results,
    (appendAll r es).timestamp = r.timestamp := by
  induction es with
  | nil => intro r; rfl
  | cons e es ih => intro r; rw [appendAll_cons, ih, log_timestamp]

theorem appendAll_tests (es : List Entry) : ∀ r : Results,
    (appendAll r es).tests = r.tests ++ es := by
  induction es with
  | nil => intro r; simp [appendAll_nil]
  | cons e es ih =>
    intro r
    rw [appendAll_cons, ih, log_tests]
    simp

theorem appendAll_sum (es : List Entry) : ∀ r : Results,
    tallySum (appendAll r es).summary = tallySum r.summary + es.length := by
  induction es with
  | nil => intro r; simp [appendAll_nil]
  | cons e es ih =>
    intro r
    rw [appendAll_cons, ih, log_sum]
    simp [List.length_cons]
    omega

theorem appendAll_failed (es : List Entry) : ∀ r : Results,
    (appendAll r es).summary.failed = r.summary.failed + failCount es := by
  induction es with
  | nil => intro r; simp [appendAll_nil, failCount]
  | cons e es ih =>
    intro r
    rw [appendAll_cons, ih, log_failed]
    show _ = r.summary.failed + ((if e.status = "FAIL" then 1 else 0) + failCount es)
    omega

theorem appendAll_summary_congr (es : List Entry) : ∀ r r' : Results,
    r.summary = r'.summary → (appendAll r es).summary = (appendAll r' es).summary := by
  induction es with
  | nil => intro r r' h; exact h
  | cons e es ih =>
    intro r r' h
    rw [appendAll_cons, appendAll_cons]
    exact ih _ _ (by rw [log_summary, log_summary, h])

theorem failCount_append (es1 es2 : List Entry) :
    failCount (es1 ++ es2) = failCount es1 + failCount es2 := by
  induction es1 with
  | nil => simp [failCount]
  | cons e es ih => simp [failCount, ih]; omega

/-! ### Each check equals its entry-list mirror -/

theorem test_image_exists_eq (fs : FS) (r : Results) :
    test_image_exists fs r = appendAll r (imageEntries fs) := by
  simp only [test_image_exists, imageEntries]
  split <;> rfl

theorem test_kernel_exists_eq (fs : FS) (r : Results) :
    test_kernel_exists fs r = appendAll r (kernelEntries fs) := by
  simp only [test_kernel_exists, kernelEntries]
  split <;> rfl

theorem test_dtb_exists_eq (fs : FS) (r : Results) :
    test_dtb_exists fs r = appendAll r (dtbEntries fs) := by
  simp only [test_dtb_exists, dtbEntries]
  split <;> rfl

theorem test_rootfs_exists_eq (fs : FS) (r : Results) :
    test_rootfs_exists fs r = appendAll r (rootfsEntries fs) := by
  simp only [test_rootfs_exists, rootfsEntries]
  split <;> rfl

theorem test_boot_partition_eq (fs : FS) (r : Results) :
    test_boot_partition fs r = appendAll r (bootEntries fs) := by
  simp only [test_boot_partition, bootEntries]
  split <;> rfl

theorem test_python_in_rootfs_eq (fs : FS) (r : Results) :
    test_python_in_rootfs fs r = appendAll r (pythonEntries fs) := by
  simp only [test_python_in_rootfs, pythonEntries]
  split <;> rfl

theorem test_opencv_libs_eq (fs : FS) (r : Results) :
    test_opencv_libs fs r = appendAll r (opencvEntries fs) := by
  simp only [test_opencv_libs, opencvEntries]
  split <;> (try split) <;> rfl

theorem test_network_config_eq (fs : FS) (r : Results) :
    test_network_config fs r = Option.map (fun es => appendAll r es) (networkEntries fs) := by
  simp only [test_network_config, networkEntries]
  split
  · cases fs.readText netConfigPath with
    | none => rfl
    | some content => dsimp only; split <;> rfl
  · rfl

theorem test_ssh_server_eq (fs : FS) (r : Results) :
    test_ssh_server fs r = appendAll r (sshEntries fs) := by
  simp only [test_ssh_server, sshEntries]
  split <;> rfl

theorem test_i2c_tools_eq (fs : FS) (r : Results) :
    test_i2c_tools fs r = appendAll r (i2cEntries fs) := by
  simp only [test_i2c_tools, i2cEntries]
  split <;> rfl

theorem test_kernel_modules_eq (fs : FS) (r : Results) :
    test_kernel_modules fs r = Option.map (fun es => appendAll r es) (modulesEntries fs) := by
  simp only [test_kernel_modules, modulesEntries]
  split
  · cases fs.dirEntries modulesDirPath with
    | none => rfl
    | some module_dirs => dsimp only; split <;> rfl
  · rfl

theorem test_rootfs_overlay_eq (fs : FS) (r : Results) :
    test_rootfs_overlay fs r = appendAll r (overlayEntries fs) := by
  simp only [test_rootfs_overlay, overlayEntries]
  split <;> rfl

theorem test_wifi_config_eq (fs : FS) (r : Results) :
    test_wifi_config fs r = Option.map (fun es => appendAll r es) (wifiEntries fs) := by
  simp only [test_wifi_config, wifiEntries]
  split
  · cases fs.readText wpaConfPath with
    | none => rfl
    | some content => dsimp only; split <;> rfl
  · rfl

theorem test_utilities_eq (fs : FS) (r : Results) :
    test_utilities fs r = appendAll r (utilitiesEntries fs) := by
  simp only [test_utilities, utilitiesEntries]
  split <;> rfl

theorem test_firmware_files_eq (fs : FS) (r : Results) :
    test_firmware_files fs r = appendAll r (firmwareEntries fs) := by
  simp only [test_firmware_files, firmwareEntries]
  split <;> (try split) <;> rfl

theorem test_image_size_eq (fs : FS) (r : Results) :
    test_image_size fs r = appendAll r (sizeEntries fs) := by
  simp only [test_image_size, sizeEntries]
  split <;> (try split) <;> (try split) <;> rfl

theorem test_toolchain_eq (fs : FS) (r : Results) :
    test_toolchain fs r = appendAll r (toolchainEntries fs) := by
  simp only [test_toolchain, toolchainEntries]
  split <;> rfl

/-- The run is the fold of the collected entry lists over the fresh state. -/
theorem run_all_tests_eq (fs : FS) (now : String) :
    run_all_tests fs now =
      Option.map (fun es => appendAll (initResults now) es) (runEntries fs) := by
  simp only [run_all_tests, runEntries, test_image_exists_eq, test_kernel_exists_eq,
    test_dtb_exists_eq, test_rootfs_exists_eq, test_boot_partition_eq,
    test_python_in_rootfs_eq, test_opencv_libs_eq, test_ssh_server_eq, test_i2c_tools_eq,
    test_network_config_eq, test_wifi_config_eq, test_rootfs_overlay_eq,
    test_kernel_modules_eq, test_utilities_eq, test_firmware_files_eq, test_image_size_eq,
    test_toolchain_eq]
  cases hn : networkEntries fs with
  | none => rfl
  | some ne =>
    cases hw : wifiEntries fs with
    | none => rfl
    | some we =>
      cases hm : modulesEntries fs with
      | none => rfl
      | some me =>
        simp only [Option.map, appendAll_append]

/-! ### Entry-list lengths: every check logs exactly one result, except
`test_image_size`, which logs nothing when the image file is absent -/

theorem imageEntries_length (fs : FS) : (imageEntries fs).length = 1 := by
  unfold imageEntries; split <;> rfl

theorem kernelEntries_length (fs : FS) : (kernelEntries fs).length = 1 := by
  unfold kernelEntries; split <;> rfl

theorem dtbEntries_length (fs : FS) : (dtbEntries fs).length = 1 := by
  unfold dtbEntries; split <;> rfl

theorem rootfsEntries_length (fs : FS) : (rootfsEntries fs).length = 1 := by
  unfold rootfsEntries; split <;> rfl

theorem bootEntries_length (fs : FS) : (bootEntries fs).length = 1 := by
  unfold bootEntries; split <;> rfl

theorem pythonEntries_length (fs : FS) : (pythonEntries fs).length = 1 := by
  simp only [pythonEntries]; split <;> rfl

theorem opencvEntries_length (fs : FS) : (opencvEntries fs).length = 1 := by
  simp only [opencvEntries]; split <;> (try split) <;> rfl

theorem networkEntries_length (fs : FS) (es : List Entry)
    (h : networkEntries fs = some es) : es.length = 1 := by
  unfold networkEntries at h
  split at h
  · split at h
    · cases h
    · split at h <;> (injection h with h; subst h; rfl)
  · injection h with h; subst h; rfl

theorem sshEntries_length (fs : FS) : (sshEntries fs).length = 1 := by
  simp only [sshEntries]; split <;> rfl

theorem i2cEntries_length (fs : FS) : (i2cEntries fs).length = 1 := by
  unfold i2cEntries; split <;> rfl

theorem modulesEntries_length (fs : FS) (es : List Entry)
    (h : modulesEntries fs = some es) : es.length = 1 := by
  unfold modulesEntries at h
  split at h
  · split at h
    · cases h
    · split at h <;> (injection h with h; subst h; rfl)
  · injection h with h; subst h; rfl

theorem overlayEntries_length (fs : FS) : (overlayEntries fs).length = 1 := by
  unfold overlayEntries; split <;> rfl

theorem wifiEntries_length (fs : FS) (es : List Entry)
    (h : wifiEntries fs = some es) : es.length = 1 := by
  unfold wifiEntries at h
  split at h
  · split at h
    · cases h
    · split at h <;> (injection h with h; subst h; rfl)
  · injection h with h; subst h; rfl

theorem utilitiesEntries_length (fs : FS) : (utilitiesEntries fs).length = 1 := by
  simp only [utilitiesEntries]; split <;> rfl

theorem firmwareEntries_length (fs : FS) : (firmwareEntries fs).length = 1 := by
  simp only [firmwareEntries]; split <;> (try split) <;> rfl

theorem sizeEntries_length (fs : FS) :
    (sizeEntries fs).length = if fs.pathExists imgSdPath then 1 else 0 := by
  unfold sizeEntries
  split <;> (try split) <;> (try split) <;> rfl

theorem toolchainEntries_length (fs : FS) : (toolchainEntries fs).length = 1 := by
  unfold toolchainEntries; split <;> rfl

theorem runEntries_length (fs : FS) (es : List Entry) (h : runEntries fs = some es) :
    es.length = if fs.pathExists imgSdPath then 17 else 16 := by
  cases hn : networkEntries fs with
  | none => unfold runEntries at h; rw [hn] at h; cases h
  | some ne =>
    cases hw : wifiEntries fs with
    | none => unfold runEntries at h; rw [hn, hw] at h; cases h
    | some we =>
      cases hm : modulesEntries fs with
      | none => unfold runEntries at h; rw [hn, hw, hm] at h; cases h
      | some me =>
        unfold runEntries at h
        rw [hn, hw, hm] at h
        injection h with h
        subst h
        simp only [List.length_append, imageEntries_length, kernelEntries_length,
          dtbEntries_length, rootfsEntries_length, bootEntries_length, pythonEntries_length,
          opencvEntries_length, sshEntries_length, i2cEntries_length,
          networkEntries_length fs ne hn, wifiEntries_length fs we hw, overlayEntries_length,
          modulesEntries_length fs me hm, utilitiesEntries_length, firmwareEntries_length,
          sizeEntries_length, toolchainEntries_length]
        split <;> rfl

/-! ### FAIL counts per check: nine checks can log at most one FAIL,
the other eight never log one -/

theorem failCount_single (e : Entry) :
    failCount [e] = if e.status = "FAIL" then 1 else 0 := by
  simp only [failCount]; omega

theorem imageEntries_failCount (fs : FS) : failCount (imageEntries fs) ≤ 1 := by
  unfold imageEntries; split <;> simp [failCount_single]

theorem kernelEntries_failCount (fs : FS) : failCount (kernelEntries fs) ≤ 1 := by
  unfold kernelEntries; split <;> simp [failCount_single]

theorem dtbEntries_failCount (fs : FS) : failCount (dtbEntries fs) ≤ 1 := by
  unfold dtbEntries; split <;> simp [failCount_single]

theorem rootfsEntries_failCount (fs : FS) : failCount (rootfsEntries fs) ≤ 1 := by
  unfold rootfsEntries; split <;> simp [failCount_single]

theorem bootEntries_failCount (fs : FS) : failCount (bootEntries fs) ≤ 1 := by
  unfold bootEntries; split <;> simp [failCount_single]

theorem pythonEntries_failCount (fs : FS) : failCount (pythonEntries fs) ≤ 1 := by
  simp only [pythonEntries]; split <;> simp [failCount_single]

theorem opencvEntries_failCount (fs : FS) : failCount (opencvEntries fs) = 0 := by
  simp only [opencvEntries]; split <;> (try split) <;> simp [failCount_single]

theorem networkEntries_failCount (fs : FS) (es : List Entry)
    (h : networkEntries fs = some es) : failCount es ≤ 1 := by
  unfold networkEntries at h
  split at h
  · split at h
    · cases h
    · split at h <;> (injection h with h; subst h; simp [failCount_single])
  · injection h with h; subst h; simp [failCount_single]

theorem sshEntries_failCount (fs : FS) : failCount (sshEntries fs) ≤ 1 := by
  simp only [sshEntries]; split <;> simp [failCount_single]

theorem i2cEntries_failCount (fs : FS) : failCount (i2cEntries fs) = 0 := by
  unfold i2cEntries; split <;> simp [failCount_single]

theorem modulesEntries_failCount (fs : FS) (es : List Entry)
    (h : modulesEntries fs = some es) : failCount es = 0 := by
  unfold modulesEntries at h
  split at h
  · split at h
    · cases h
    · split at h <;> (injection h with h; subst h; simp [failCount_single])
  · injection h with h; subst h; simp [failCount_single]

theorem overlayEntries_failCount (fs : FS) : failCount (overlayEntries fs) = 0 := by
  unfold overlayEntries; split <;> simp [failCount_single]

theorem wifiEntries_failCount (fs : FS) (es : List Entry)
    (h : wifiEntries fs = some es) : failCount es = 0 := by
  unfold wifiEntries at h
  split at h
  · split at h
    · cases h
    · split at h <;> (injection h with h; subst h; simp [failCount_single])
  · injection h with h; subst h; simp [failCount_single]

theorem utilitiesEntries_failCount (fs : FS) : failCount (utilitiesEntries fs) = 0 := by
  simp only [utilitiesEntries]; split <;> simp [failCount_single]

theorem firmwareEntries_failCount (fs : FS) : failCount (firmwareEntries fs) ≤ 1 := by
  simp only [firmwareEntries]; split <;> (try split) <;> simp [failCount_single]

theorem sizeEntries_failCount (fs : FS) : failCount (sizeEntries fs) = 0 := by
  unfold sizeEntries
  split <;> (try split) <;> (try split) <;> simp [failCount_single, failCount]

theorem toolchainEntries_failCount (fs : FS) : failCount (toolchainEntries fs) = 0 := by
  unfold toolchainEntries; split <;> simp [failCount_single]

theorem runEntries_failCount (fs : FS) (es : List Entry) (h : runEntries fs = some es) :
    failCount es ≤ 9 := by
  cases hn : networkEntries fs with
  | none => unfold runEntries at h; rw [hn] at h; cases h
  | some ne =>
    cases hw : wifiEntries fs with
    | none => unfold runEntries at h; rw [hn, hw] at h; cases h
    | some we =>
      cases hm : modulesEntries fs with
      | none => unfold runEntries at h; rw [hn, hw, hm] at h; cases h
      | some me =>
        unfold runEntries at h
        rw [hn, hw, hm] at h
        injection h with h
        subst h
        simp only [failCount_append]
        have h1 := imageEntries_failCount fs
        have h2 := kernelEntries_failCount fs
        have h3 := dtbEntries_failCount fs
        have h4 := rootfsEntries_failCount fs
        have h5 := bootEntries_failCount fs
        have h6 := pythonEntries_failCount fs
        have h7 := opencvEntries_failCount fs
        have h8 := sshEntries_failCount fs
        have h9 := i2cEntries_failCount fs
        have h10 := networkEntries_failCount fs ne hn
        have h11 := wifiEntries_failCount fs we hw
        have h12 := overlayEntries_failCount fs
        have h13 := modulesEntries_failCount fs me hm
        have h14 := utilitiesEntries_failCount fs
        have h15 := firmwareEntries_failCount fs
        have h16 := sizeEntries_failCount fs
        have h17 := toolchainEntries_failCount fs
        omega

/-! ### Completion of the run when the attempted reads succeed -/

theorem networkEntries_isSome (fs : FS)
    (h : fs.pathExists netConfigPath = true → (fs.readText netConfigPath).isSome = true) :
    (networkEntries fs).isSome = true := by
  unfold networkEntries
  cases hp : fs.pathExists netConfigPath with
  | false => simp [hp]
  | true =>
    have hr := h hp
    cases hrt : fs.readText netConfigPath with
    | none => rw [hrt] at hr; cases hr
    | some content => simp only [hp, hrt, if_true]; split <;> rfl

theorem wifiEntries_isSome (fs : FS)
    (h : fs.pathExists wpaConfPath = true → (fs.readText wpaConfPath).isSome = true) :
    (wifiEntries fs).isSome = true := by
  unfold wifiEntries
  cases hp : fs.pathExists wpaConfPath with
  | false => simp [hp]
  | true =>
    have hr := h hp
    cases hrt : fs.readText wpaConfPath with
    | none => rw [hrt] at hr; cases hr
    | some content => simp only [hp, hrt, if_true]; split <;> rfl

theorem modulesEntries_isSome (fs : FS)
    (h : fs.pathExists modulesDirPath = true → (fs.dirEntries modulesDirPath).isSome = true) :
    (modulesEntries fs).isSome = true := by
  unfold modulesEntries
  cases hp : fs.pathExists modulesDirPath with
  | false => simp [hp]
  | true =>
    have hr := h hp
    cases hrt : fs.dirEntries modulesDirPath with
    | none => rw [hrt] at hr; cases hr
    | some module_dirs => simp only [hp, hrt, if_true]; split <;> rfl

/-! ### Byte-bound characterisations of the rational size comparisons:
`1.5 GiB = 1610612736` bytes and `4 GiB = 4294967296` bytes -/

theorem mkRat_ge_low_iff (n : Nat) :
    mkRat 3 2 ≤ mkRat (n : Int) (2 ^ 30) ↔ 1610612736 ≤ n := by
  rw [Rat.mkRat_eq_div, Rat.mkRat_eq_div]
  push_cast
  rw [div_le_div_iff (by norm_num) (by norm_num)]
  rw [show ((3 : ℚ) * 1073741824) = ((3221225472 : ℕ) : ℚ) from by norm_num]
  rw [show ((n : ℚ) * 2) = ((n * 2 : ℕ) : ℚ) from by push_cast; ring]
  rw [Nat.cast_le]
  omega

theorem mkRat_le_high_iff (n : Nat) :
    mkRat (n : Int) (2 ^ 30) ≤ 4 ↔ n ≤ 4294967296 := by
  rw [Rat.mkRat_eq_div]
  push_cast
  rw [div_le_iff (by norm_num)]
  rw [show ((4 : ℚ) * 1073741824) = ((4294967296 : ℕ) : ℚ) from by norm_num]
  rw [Nat.cast_le]

theorem mkRat_lt_low_iff (n : Nat) :
    mkRat (n : Int) (2 ^ 30) < mkRat 3 2 ↔ n < 1610612736 := by
  rw [Rat.mkRat_eq_div, Rat.mkRat_eq_div]
  push_cast
  rw [div_lt_div_iff (by norm_num) (by norm_num)]
  rw [show ((3 : ℚ) * 1073741824) = ((3221225472 : ℕ) : ℚ) from by norm_num]
  rw [show ((n : ℚ) * 2) = ((n * 2 : ℕ) : ℚ) from by push_cast; ring]
  rw [Nat.cast_lt]
  omega

/-! ### The claims -/

/-- C1: the readiness verdict is a pure function of the final tally
(P, F, W), evaluated in priority order: READY iff F = 0 and P ≥ 12;
otherwise CONDITIONAL iff F ≤ 2 and W ≤ 3; otherwise NOT_READY, which
covers all remaining tallies including F = 0 with P < 12 (witnessed by
the tally (11, 0, 4)). -/
theorem readiness_verdict_cases (P F W : Nat) :
    (verdictOf ⟨P, F, W⟩ = Verdict.READY ↔ (F = 0 ∧ 12 ≤ P)) ∧
    (verdictOf ⟨P, F, W⟩ = Verdict.CONDITIONAL ↔ (¬(F = 0 ∧ 12 ≤ P) ∧ F ≤ 2 ∧ W ≤ 3)) ∧
    (verdictOf ⟨P, F, W⟩ = Verdict.NOT_READY ↔ (¬(F = 0 ∧ 12 ≤ P) ∧ ¬(F ≤ 2 ∧ W ≤ 3))) ∧
    verdictOf ⟨11, 0, 4⟩ = Verdict.NOT_READY := by
  unfold verdictOf
  split_ifs <;> simp_all

/-- C9: every `log` call increments exactly one of the three counters by
one — `passed` when the status string is `"PASS"`, `failed` when it is
`"FAIL"`, and `warnings` for every other status string whatsoever — and
appends exactly one entry, so the counter total always equals the number
of logged results. -/
theorem log_tally_increment (r : Results) (s n m d : String) :
    tallySum (log r s n m d).summary = tallySum r.summary + 1 ∧
    (log r s n m d).tests.length = r.tests.length + 1 ∧
    (s = "PASS" → (log r s n m d).summary = { r.summary with passed := r.summary.passed + 1 }) ∧
    (s = "FAIL" → (log r s n m d).summary = { r.summary with failed := r.summary.failed + 1 }) ∧
    (s ≠ "PASS" → s ≠ "FAIL" →
      (log r s n m d).summary = { r.summary with warnings := r.summary.warnings + 1 }) ∧
    (tallySum r.summary = r.tests.length →
      tallySum (log r s n m d).summary = (log r s n m d).tests.length) := by
  refine ⟨log_sum r s n m d, ?_, ?_, ?_, ?_, ?_⟩
  · rw [log_tests]; simp
  · intro hs; rw [log_summary]; simp [hs]
  · intro hs; rw [log_summary]; simp [hs]
  · intro hp hf; rw [log_summary]; simp [hp, hf]
  · intro hsum; rw [log_sum, log_tests, hsum]; simp

/-- Witness for C9: logging the status string `"SKIP"` (neither `"PASS"`
nor `"FAIL"` nor `"WARN"`) bumps the warnings counter, and the counter
total equals the number of stored entries. -/
theorem log_tally_increment_witness :
    (log (initResults ts0) "SKIP" "X" "m" "d").summary = { passed := 0, failed := 0, warnings := 1 } ∧
    tallySum (log (initResults ts0) "SKIP" "X" "m" "d").summary =
      (log (initResults ts0) "SKIP" "X" "m" "d").tests.length :=
  ⟨(log_tally_increment (initResults ts0) "SKIP" "X" "m" "d").2.2.2.2.1 (by decide) (by decide),
   (log_tally_increment (initResults ts0) "SKIP" "X" "m" "d").2.2.2.2.2 rfl⟩

/-- C2: for every run that executes all checks (i.e. completes), the
counter total `passed + failed + warnings` is 17, except that when
`sdcard.img` is absent the image-size check contributes no result at all
and the total is 16. -/
theorem run_counts_total (fs : FS) (now : String) (r : Results)
    (h : run_all_tests fs now = some r) :
    r.summary.passed + r.summary.failed + r.summary.warnings =
      if fs.pathExists imgSdPath then 17 else 16 := by
  rw [run_all_tests_eq] at h
  cases hre : runEntries fs with
  | none => rw [hre] at h; simp at h
  | some es =>
    rw [hre] at h
    simp only [Option.map_some', Option.some.injEq] at h
    subst h
    have hs := appendAll_sum es (initResults now)
    have hl := runEntries_length fs es hre
    show tallySum (appendAll (initResults now) es).summary = _
    rw [hs, hl]
    simp [tallySum, initResults]

/-- Witness for C2: on the fully-populated fixture the run completes and
the counters total 17. -/
theorem run_counts_total_witness :
    run_all_tests goodFS ts0 = some goodResult ∧
    goodResult.summary.passed + goodResult.summary.failed + goodResult.summary.warnings = 17 :=
  ⟨rfl, (run_counts_total goodFS ts0 goodResult rfl).trans (by decide)⟩

/-- C3 is refuted twice: an I/O failure inside a check is NOT caught at
the check's boundary.  On `badFS`, where the network interfaces file
exists but reading it raises, `test_network_config` propagates the error
out of the check (`none`) and the whole run aborts.  On `modFS`, where
every read succeeds (`readText` is `some` at every path) but the
existing `lib/modules` directory cannot be listed, `test_kernel_modules`
propagates the `iterdir()` error and the run aborts as well. -/
theorem read_error_escapes_check :
    badFS.pathExists netConfigPath = true ∧
    test_network_config badFS (initResults ts0) = none ∧
    run_all_tests badFS ts0 = none ∧
    modFS.readText netConfigPath = some "" ∧
    modFS.readText wpaConfPath = some "" ∧
    modFS.pathExists modulesDirPath = true ∧
    test_kernel_modules modFS (initResults ts0) = none ∧
    run_all_tests modFS ts0 = none :=
  ⟨by decide, rfl, rfl, rfl, rfl, by decide, rfl, rfl⟩

/-- C3 (amended): no check catches I/O errors.  The three checks that
perform a fallible operation — the unguarded `read_text()` in the
network-config and WiFi-config checks and the unguarded
`list(iterdir())` in the kernel-modules check — propagate such a failure
out of the check, aborting the run, instead of downgrading it to WARN or
FAIL.  Conversely, whenever every read and directory listing that is
attempted succeeds, every check completes and the run finishes. -/
theorem run_completes_when_reads_ok (fs : FS) (now : String) (r : Results) :
    (fs.pathExists netConfigPath = true → fs.readText netConfigPath = none →
      test_network_config fs r = none) ∧
    (fs.pathExists wpaConfPath = true → fs.readText wpaConfPath = none →
      test_wifi_config fs r = none) ∧
    (fs.pathExists modulesDirPath = true → fs.dirEntries modulesDirPath = none →
      test_kernel_modules fs r = none) ∧
    ((fs.pathExists netConfigPath = true → (fs.readText netConfigPath).isSome = true) →
     (fs.pathExists wpaConfPath = true → (fs.readText wpaConfPath).isSome = true) →
     (fs.pathExists modulesDirPath = true → (fs.dirEntries modulesDirPath).isSome = true) →
     (run_all_tests fs now).isSome = true) := by
  refine ⟨?_, ?_, ?_, ?_⟩
  · intro h1 h2
    unfold test_network_config
    simp [h1, h2]
  · intro h1 h2
    unfold test_wifi_config
    simp [h1, h2]
  · intro h1 h2
    unfold test_kernel_modules
    simp [h1, h2]
  · intro h1 h2 h3
    rw [run_all_tests_eq]
    have hn := networkEntries_isSome fs h1
    have hw := wifiEntries_isSome fs h2
    have hm := modulesEntries_isSome fs h3
    obtain ⟨ne, hne⟩ := Option.isSome_iff_exists.mp hn
    obtain ⟨we, hwe⟩ := Option.isSome_iff_exists.mp hw
    obtain ⟨me, hme⟩ := Option.isSome_iff_exists.mp hm
    unfold runEntries
    rw [hne, hwe, hme]
    rfl

/-- Witness for C3 (amended): the failing read on `badFS` escapes the
network-config check, the failing listing on `modFS` escapes the
kernel-modules check, and on `goodFS` (every attempted read and listing
succeeds) the run completes. -/
theorem run_completes_when_reads_ok_witness :
    test_network_config badFS (initResults ts0) = none ∧
    test_kernel_modules modFS (initResults ts0) = none ∧
    (run_all_tests goodFS ts0).isSome = true :=
  ⟨(run_completes_when_reads_ok badFS ts0 (initResults ts0)).1 (by decide) rfl,
   (run_completes_when_reads_ok modFS ts0 (initResults ts0)).2.2.1 (by decide) rfl,
   (run_completes_when_reads_ok goodFS ts0 (initResults ts0)).2.2.2
     (fun _ => rfl) (fun hc => absurd hc (by decide)) (fun _ => rfl)⟩

/-- C4: with `sdcard.img` present, the image-size check classifies
exactly 1.5 GiB (1610612736 bytes) and exactly 4 GiB (4294967296 bytes)
as PASS (inclusive bounds), any size strictly below 1.5 GiB as WARN
"Smaller than expected", any size strictly above 4 GiB as WARN "Larger
than expected", and never produces a FAIL. -/
theorem image_size_classification (fs : FS) (r : Results)
    (h : fs.pathExists imgSdPath = true) :
    ((fs.size imgSdPath = 1610612736 ∨ fs.size imgSdPath = 4294967296) →
      test_image_size fs r =
        log r "PASS" "Image Size" ( "Size OK (" ++ fmtGB (fs.size imgSdPath) ++ " GB)") "") ∧
    (fs.size imgSdPath < 1610612736 →
      test_image_size fs r =
        log r "WARN" "Image Size" ( "Smaller than expected (" ++ fmtGB (fs.size imgSdPath) ++ " GB)") "") ∧
    (4294967296 < fs.size imgSdPath →
      test_image_size fs r =
        log r "WARN" "Image Size" ( "Larger than expected (" ++ fmtGB (fs.size imgSdPath) ++ " GB)") "") ∧
    (test_image_size fs r).summary.failed = r.summary.failed := by
  unfold test_image_size
  rw [if_pos h]
  split_ifs with hc hlt
  · rw [mkRat_ge_low_iff, mkRat_le_high_iff] at hc
    refine ⟨fun _ => rfl, fun hs => ?_, fun hg => ?_, ?_⟩
    · omega
    · omega
    · rw [log_failed]; simp
  · rw [mkRat_lt_low_iff] at hlt
    refine ⟨fun hor => ?_, fun _ => rfl, fun hg => ?_, ?_⟩
    · rcases hor with h1 | h1 <;> omega
    · omega
    · rw [log_failed]; simp
  · rw [mkRat_ge_low_iff, mkRat_le_high_iff] at hc
    rw [mkRat_lt_low_iff] at hlt
    refine ⟨fun hor => ?_, fun hs => ?_, fun _ => rfl, ?_⟩
    · rcases hor with h1 | h1 <;> omega
    · omega
    · rw [log_failed]; simp

/-- Witness for C4: an image of exactly 1610612736 bytes (1.5 GiB)
classifies as PASS. -/
theorem image_size_classification_witness :
    (sizeFS 1610612736).pathExists imgSdPath = true ∧
    test_image_size (sizeFS 1610612736) (initResults ts0) =
      log (initResults ts0) "PASS" "Image Size" ( "Size OK (" ++ fmtGB 1610612736 ++ " GB)") "" :=
  ⟨by decide,
   (image_size_classification (sizeFS 1610612736) (initResults ts0) (by decide)).1 (Or.inl rfl)⟩

/-- C5 is refuted: the OpenCV check PASSes when only one of the two
required patterns has a match.  On `cvFS` the library directory exists,
`libopencv_imgproc.so` (a required pattern) has no match, yet the check
logs PASS — so PASS does not require a match for each required pattern. -/
theorem opencv_pass_with_missing_pattern :
    (test_opencv_libs cvFS (initResults ts0)).tests.map (fun e => e.status) = [ "PASS"] ∧
    cvFS.pathExists libDirPath = true ∧
    cvFS.globMatch libDirPath "libopencv_imgproc.so" = false ∧
    "libopencv_imgproc.so" ∈ opencvPatterns :=
  ⟨rfl, by decide, rfl, by decide⟩

/-- C5 (amended): the OpenCV check searches recursively under the library
directory and reports PASS if at least one of the required patterns has a
match (reporting how many matched), WARN when none matches, and WARN (not
FAIL) when the containing library directory is inaccessible. -/
theorem opencv_pattern_classification (fs : FS) (r : Results) :
    (fs.pathExists libDirPath = false →
      test_opencv_libs fs r = log r "WARN" "OpenCV4" "Cannot verify (lib dir not accessible)" "") ∧
    (fs.pathExists libDirPath = true →
      opencvPatterns.any (fun pat => fs.globMatch libDirPath pat) = true →
      test_opencv_libs fs r =
        log r "PASS" "OpenCV4"
          ( "Found " ++ Nat.repr ((opencvPatterns.filter (fun pat => fs.globMatch libDirPath pat)).length) ++ " core libraries") "") ∧
    (fs.pathExists libDirPath = true →
      opencvPatterns.any (fun pat => fs.globMatch libDirPath pat) = false →
      test_opencv_libs fs r = log r "WARN" "OpenCV4" "OpenCV libraries not confirmed" "") := by
  refine ⟨?_, ?_, ?_⟩
  · intro h
    unfold test_opencv_libs
    simp [h]
  · intro h ha
    unfold test_opencv_libs
    cases hb1 : fs.globMatch libDirPath "libopencv_core.so" <;>
      cases hb2 : fs.globMatch libDirPath "libopencv_imgproc.so" <;>
      simp_all [opencvPatterns]
  · intro h ha
    unfold test_opencv_libs
    cases hb1 : fs.globMatch libDirPath "libopencv_core.so" <;>
      cases hb2 : fs.globMatch libDirPath "libopencv_imgproc.so" <;>
      simp_all [opencvPatterns]

/-- Witness for C5 (amended): on `cvFS` one pattern matches, so the check
logs PASS reporting one found library. -/
theorem opencv_pattern_classification_witness :
    test_opencv_libs cvFS (initResults ts0) =
      log (initResults ts0) "PASS" "OpenCV4"
        ( "Found " ++ Nat.repr ((opencvPatterns.filter (fun pat => cvFS.globMatch libDirPath pat)).length) ++ " core libraries") "" :=
  (opencv_pattern_classification cvFS (initResults ts0)).2.1 (by decide) (by decide)

/-- C6 is refuted: when writing the persisted report fails, no error
message is reported and the process aborts — `generate_report` does not
run to completion (the unguarded `open`/`json.dump` exception
propagates), and no report is written. -/
theorem report_write_failure_aborts :
    (generate_report (initResults ts0) false).completed = false ∧
    (generate_report (initResults ts0) false).written = none :=
  ⟨rfl, rfl⟩

/-- C6 (amended): if writing the persisted report fails, the exception
propagates uncaught and the process aborts; the verdict — computed and
printed before the write is attempted — is unchanged, everything printed
before the failure is identical to the success case (the failure itself
prints nothing, in particular no error message), and no retry occurs. -/
theorem report_write_failure_behavior (r : Results) :
    (generate_report r false).verdict = (generate_report r true).verdict ∧
    (generate_report r false).verdict = verdictOf r.summary ∧
    (generate_report r false).completed = false ∧
    (generate_report r false).written = none ∧
    (generate_report r true).printed =
      (generate_report r false).printed ++
        [ "\nDetailed report saved: " ++ reportFilePath, repChar 70 '=' ++ "\n"] := by
  refine ⟨rfl, rfl, rfl, rfl, ?_⟩
  simp only [generate_report]
  simp

/-- C7: the run is deterministic in the filesystem snapshot — two runs
over the same snapshot (with possibly different timestamps) produce the
identical ordered list of per-check outcomes (name, status, message,
detail) and the identical verdict. -/
theorem run_deterministic (fs : FS) (t1 t2 : String) :
    Option.map Results.tests (run_all_tests fs t1) =
      Option.map Results.tests (run_all_tests fs t2) ∧
    Option.map (fun r => verdictOf r.summary) (run_all_tests fs t1) =
      Option.map (fun r => verdictOf r.summary) (run_all_tests fs t2) := by
  rw [run_all_tests_eq, run_all_tests_eq]
  cases hre : runEntries fs with
  | none => exact ⟨rfl, rfl⟩
  | some es =>
    refine ⟨?_, ?_⟩
    · simp only [Option.map_some']
      rw [appendAll_tests, appendAll_tests]
      rfl
    · simp only [Option.map_some', Option.some.injEq]
      exact congrArg verdictOf (appendAll_summary_congr es _ _ rfl)

/-- C8: whenever the wireless configuration file is absent the WiFi check
logs WARN (not FAIL), whenever the I2C tool is absent the I2C check logs
WARN (not FAIL); and on the fixture `goodFS`, which is missing exactly
those two while everything else passes, the run's verdict is READY (tally
15 passed, 0 failed, 2 warnings). -/
theorem missing_wifi_i2c_warn (fs : FS) (r : Results) :
    (fs.pathExists wpaConfPath = false →
      test_wifi_config fs r = some (log r "WARN" "WiFi Config" "wpa_supplicant.conf not found" "")) ∧
    (fs.pathExists i2cDetectPath = false →
      test_i2c_tools fs r = log r "WARN" "I2C Tools" "i2c-tools not confirmed" "") ∧
    goodFS.pathExists wpaConfPath = false ∧
    goodFS.pathExists i2cDetectPath = false ∧
    Option.map (fun res => verdictOf res.summary) (run_all_tests goodFS ts0) =
      some Verdict.READY ∧
    Option.map Results.summary (run_all_tests goodFS ts0) = some ⟨15, 0, 2⟩ := by
  refine ⟨?_, ?_, by decide, by decide, rfl, rfl⟩
  · intro h
    unfold test_wifi_config
    simp [h]
  · intro h
    unfold test_i2c_tools
    simp [h]

/-- Witness for C8: on `goodFS` both checks log the WARN results. -/
theorem missing_wifi_i2c_warn_witness :
    test_wifi_config goodFS (initResults ts0) =
      some (log (initResults ts0) "WARN" "WiFi Config" "wpa_supplicant.conf not found" "") ∧
    test_i2c_tools goodFS (initResults ts0) =
      log (initResults ts0) "WARN" "I2C Tools" "i2c-tools not confirmed" "" :=
  ⟨(missing_wifi_i2c_warn goodFS (initResults ts0)).1 (by decide),
   (missing_wifi_i2c_warn goodFS (initResults ts0)).2.1 (by decide)⟩

/-- C10: in every completed run at most 9 of the 17 checks log FAIL, so
the final failed counter is at most 9; the other eight checks — OpenCV,
I2C tools, kernel modules, custom overlay, WiFi config, utilities, image
size and toolchain — never log FAIL on any filesystem state (whenever
they produce a result, their FAIL counter contribution is zero). -/
theorem fail_count_bounded (fs : FS) (now : String) (r r' : Results)
    (h : run_all_tests fs now = some r) :
    r.summary.failed ≤ 9 ∧
    (test_opencv_libs fs r').summary.failed = r'.summary.failed ∧
    (test_i2c_tools fs r').summary.failed = r'.summary.failed ∧
    (∀ r2, test_kernel_modules fs r' = some r2 → r2.summary.failed = r'.summary.failed) ∧
    (test_rootfs_overlay fs r').summary.failed = r'.summary.failed ∧
    (∀ r2, test_wifi_config fs r' = some r2 → r2.summary.failed = r'.summary.failed) ∧
    (test_utilities fs r').summary.failed = r'.summary.failed ∧
    (test_image_size fs r').summary.failed = r'.summary.failed ∧
    (test_toolchain fs r').summary.failed = r'.summary.failed := by
  refine ⟨?_, ?_, ?_, ?_, ?_, ?_, ?_, ?_, ?_⟩
  · rw [run_all_tests_eq] at h
    cases hre : runEntries fs with
    | none => rw [hre] at h; simp at h
    | some es =>
      rw [hre] at h
      simp only [Option.map_some', Option.some.injEq] at h
      subst h
      rw [appendAll_failed]
      have hb := runEntries_failCount fs es hre
      simp [initResults]
      omega
  · rw [test_opencv_libs_eq, appendAll_failed, opencvEntries_failCount]
    rfl
  · rw [test_i2c_tools_eq, appendAll_failed, i2cEntries_failCount]
    rfl
  · intro r2 h2
    rw [test_kernel_modules_eq] at h2
    cases hm : modulesEntries fs with
    | none => rw [hm] at h2; simp at h2
    | some me =>
      rw [hm] at h2
      simp only [Option.map_some', Option.some.injEq] at h2
      subst h2
      rw [appendAll_failed, modulesEntries_failCount fs me hm]
      rfl
  · rw [test_rootfs_overlay_eq, appendAll_failed, overlayEntries_failCount]
    rfl
  · intro r2 h2
    rw [test_wifi_config_eq] at h2
    cases hw : wifiEntries fs with
    | none => rw [hw] at h2; simp at h2
    | some we =>
      rw [hw] at h2
      simp only [Option.map_some', Option.some.injEq] at h2
      subst h2
      rw [appendAll_failed, wifiEntries_failCount fs we hw]
      rfl
  · rw [test_utilities_eq, appendAll_failed, utilitiesEntries_failCount]
    rfl
  · rw [test_image_size_eq, appendAll_failed, sizeEntries_failCount]
    rfl
  · rw [test_toolchain_eq, appendAll_failed, toolchainEntries_failCount]
    rfl

/-- Witness for C10: the completed run on `goodFS` has at most 9 failures
(in fact 0). -/
theorem fail_count_bounded_witness :
    run_all_tests goodFS ts0 = some goodResult ∧ goodResult.summary.failed ≤ 9 :=
  ⟨rfl, (fail_count_bounded goodFS ts0 goodResult (initResults ts0) rfl).1⟩

end PioneerOS
